import Mathlib

/-!
Verification of the Legion multi-database MCP server
(`src/database_mcp/mcp_server.py`) against its natural-language
specification.

Shallow embedding conventions:
* Python dictionaries whose values may be absent are modelled with `Option`.
* A query-result row (a Python dict from column name to value) is an
  association list `List (String × String)`; all cell values are modelled as
  the string Python's `str` would render (missing keys render as `"None"`).
* A Python exception is a `PyErr`; a call that may raise returns
  `Except PyErr α`.  A function that catches every exception and returns a
  string is total by construction.
* The external `QueryRunner` collaborator is modelled as deterministic
  response functions stored in each `DbConfig`.
* Character predicates (`str.isalnum`, `str.lower`) are modelled with Lean's
  ASCII `Char.isAlphanum` / `Char.toLower`.
-/

/-- A Python exception: `ValueError` is distinguished because
`execute_query` branches on it; every other exception is `otherError`.
The payload is `str(e)`. -/
inductive PyErr where
  | valueError (msg : String)
  | otherError (msg : String)
deriving DecidableEq, Repr

/-- The string `str(e)` of a Python exception. -/
def PyErr.msg : PyErr → String
  | .valueError m => m
  | .otherError m => m

/-- One element of the `columns` list returned by the engine's `run_query`:
a dict with a `name` key and an optional `friendly_name` key (`none` models
an absent key). -/
structure EngineColumn where
  name : Option String
  friendly_name : Option String
deriving DecidableEq, Repr

/-- A result row: a Python dict from column name to (stringified) value,
modelled as an association list. -/
abbrev Row := List (String × String)

/-- Python `dict.get(key)` on a row: `some value` when present, `none` otherwise. -/
def rowGet? (r : Row) (key : String) : Option String :=
  match r.find? (fun p => p.1 = key) with
  | some p => some p.2
  | none => none

/-- Python `dict.get(key, default)` on a row. -/
def rowGetD (r : Row) (key : String) (dflt : String) : String :=
  (rowGet? r key).getD dflt

/-- The engine's `run_query` result: `{columns: [...], rows: [...]}`. -/
structure QueryResult where
  columns : List EngineColumn
  rows : List Row
deriving DecidableEq, Repr

/-- One column descriptor inside a cached schema table:
a dict with an optional `name` key. -/
structure SchemaColumn where
  name : Option String
deriving DecidableEq, Repr

/-- One table descriptor inside a cached schema: a dict with an optional
`name` key and a `columns` list. -/
structure SchemaTable where
  name : Option String
  columns : List SchemaColumn
deriving DecidableEq, Repr

/-- The `DbConfig` dataclass: a configured database descriptor.
`schema` is the cached schema (`none` when the startup fetch failed).
The opaque `QueryRunner` collaborator is modelled by the two deterministic
response functions `run_query` (per query string) and `fetch_schema`
(the outcome of `query_runner.get_schema()`). -/
structure DbConfig where
  id : String
  db_type : String
  description : String
  schema : Option (List SchemaTable)
  run_query : String → Except PyErr QueryResult
  fetch_schema : Except String (List SchemaTable)

/-- Python truthiness of an optional list (`if db_config.schema:`):
`None` and `[]` are both falsy. -/
def pyTruthySchema : Option (List SchemaTable) → Bool
  | none => false
  | some l => !l.isEmpty

/-- Rendering `str(cell)` for a processed row cell: a missing value is Python `None`,
which `str` renders as `"None"`. -/
def pyStr : Option String → String
  | none => "None"
  | some s => s

/-! ## Configuration loading: id generation (`init_config`, lines 84-90) -/

/-- The id generated by `init_config` for a descriptor without an `id`:
`config["db_type"][:2].lower()` + `"_"` +
`''.join(c for c in config["description"] if c.isalnum())[:8].lower()` +
`"_"` + the zero-based index. -/
def genDbId (ty desc : String) (i : Nat) : String :=
  let tyAbbr := String.mk ((ty.toList.take 2).map Char.toLower)
  let descPart := String.mk (((desc.toList.filter Char.isAlphanum).take 8).map Char.toLower)
  tyAbbr ++ "_" ++ descPart ++ "_" ++ toString i

/-- The id-generation rule as the specification words it: the lowercased
first two characters of `db_type`, an underscore, the first 8 characters of
the description after removing all non-alphanumeric characters and
lowercasing, an underscore, and the zero-based index. -/
def genDbIdSpec (ty desc : String) (i : Nat) : String :=
  let tyAbbr := String.mk (((ty.toList.take 2)).map Char.toLower)
  let descPart := String.mk (((desc.toList.filter Char.isAlphanum).map Char.toLower).take 8)
  tyAbbr ++ "_" ++ descPart ++ "_" ++ toString i

/-- A raw descriptor element of the `DB_CONFIGS` array, reduced to the
fields that id assignment reads.  An absent `id` key is read as `""`
(`config.get("id", "")`). -/
structure RawConfig where
  id : String
  db_type : String
  description : String
deriving DecidableEq, Repr

/-- Id assignment for the element at zero-based index `i`
(`init_config`, lines 85-90): keep a truthy caller-supplied id, otherwise
generate one. -/
def assignId (c : RawConfig) (i : Nat) : String :=
  if c.id = "" then genDbId c.db_type c.description i else c.id

/-- C3: for a descriptor element lacking an id, the assigned id is exactly
the spec's rule — lowercased first two characters of `db_type`, underscore,
first 8 characters of the alphanumeric-filtered lowercased description,
underscore, zero-based index.  Determinism in `(db_type, description, index)`
is immediate since `assignId` is a function of exactly these data. -/
theorem assignId_eq_spec (c : RawConfig) (i : Nat) (h : c.id = "") :
    assignId c i = genDbIdSpec c.db_type c.description i := by
  simp only [assignId, h, if_pos]
  simp [genDbId, genDbIdSpec, List.map_take]

/-- Witness for C3 at a concrete descriptor:
`db_type = "postgres"`, `description = "PostgreSQL DB"`, index 0. -/
theorem assignId_eq_spec_witness :
    assignId ⟨"", "postgres", "PostgreSQL DB"⟩ 0 =
      genDbIdSpec "postgres" "PostgreSQL DB" 0 :=
  assignId_eq_spec ⟨"", "postgres", "PostgreSQL DB"⟩ 0 rfl

/-! ## Session context (`DbContext`, lines 175-192) -/

/-- The per-session mutable state: the registry (an insertion-ordered list
of descriptors, standing for the Python insertion-order-preserving dict),
the last executed query, the last raw result, and the query history. -/
structure DbContext where
  db_configs : List DbConfig
  last_query : Option String
  last_result : Option QueryResult
  query_history : List String

/-- Registry lookup by id (`db_id in db_context.db_configs` / indexing). -/
def DbContext.find (ctx : DbContext) (db_id : String) : Option DbConfig :=
  ctx.db_configs.find? (fun c => c.id = db_id)

/-! ## Python substring test (`"Invalid database ID" in str(e)`) -/

/-- Python `needle in hay` on character lists: `needle` occurs as a
contiguous run inside `hay`. -/
def listContainsSub (needle : List Char) : List Char → Bool
  | [] => needle.isEmpty
  | c :: t => needle.isPrefixOf (c :: t) || listContainsSub needle t

/-- Python's `needle in hay` substring test. -/
def strContainsSub (hay needle : String) : Bool :=
  listContainsSub needle.toList hay.toList

theorem listContainsSub_of_isPrefixOf (needle hay : List Char)
    (h : needle.isPrefixOf hay = true) : listContainsSub needle hay = true := by
  cases hay with
  | nil =>
    cases needle with
    | nil => rfl
    | cons c t => simp [List.isPrefixOf] at h
  | cons c t => simp [listContainsSub, h]

theorem listContainsSub_append (needle rest : List Char) :
    listContainsSub needle (needle ++ rest) = true := by
  apply listContainsSub_of_isPrefixOf
  induction needle with
  | nil => simp [List.isPrefixOf]
  | cons c t ih => simp [List.isPrefixOf, ih]

/-- A string always contains its own prefix: `p in (p ++ s)` is true. -/
theorem strContainsSub_append (p s : String) :
    strContainsSub (p ++ s) p = true := by
  show listContainsSub p.toList (p ++ s).toList = true
  have h : (p ++ s).toList = p.toList ++ s.toList := String.data_append p s
  rw [h]
  exact listContainsSub_append p.toList s.toList

/-! ## Query execution (`_execute_and_get_results`, lines 376-421) -/

/-- Extraction `col.get('friendly_name', col.get('name', ''))`. -/
def engineColName (col : EngineColumn) : String :=
  col.friendly_name.getD (col.name.getD "")

/-- The record returned by `_execute_and_get_results` on success.
`rows` are the processed rows (values reordered to match column order, a
missing key giving Python `None`); `raw_rows` are the original engine row
dicts. -/
structure ExecResults where
  column_names : List String
  columns : List EngineColumn
  rows : List (List (Option String))
  raw_rows : List Row
  row_count : Nat
  db_id : String
  db_description : String
  db_db_type : String

/-- Helper `_execute_and_get_results`: validates the id (raising `ValueError` on a
miss), runs the query (which may raise), and only then appends to the query
history and updates `last_query` / `last_result`.  Returns the results
record together with the updated session context. -/
def execAndGetResults (query : String) (ctx : DbContext) (db_id : String) :
    Except PyErr (ExecResults × DbContext) :=
  match ctx.find db_id with
  | none => .error (.valueError ("Invalid database ID: " ++ db_id))
  | some cfg =>
    match cfg.run_query query with
    | .error e => .error e
    | .ok result =>
      let ctx' : DbContext :=
        { ctx with
          last_query := some query
          last_result := some result
          query_history := ctx.query_history ++
            ["[" ++ db_id ++ "] [" ++ cfg.description ++ "] " ++ query] }
      let column_names := result.columns.map engineColName
      let rows := result.rows
      let processed_rows := rows.map (fun row =>
        result.columns.map (fun col => rowGet? row (col.name.getD "")))
      .ok ({ column_names := column_names
             columns := result.columns
             rows := processed_rows
             raw_rows := rows
             row_count := rows.length
             db_id := db_id
             db_description := cfg.description
             db_db_type := cfg.db_type }, ctx')

/-- The string `execute_query` returns from its `except` clauses:
a `ValueError` whose message contains `"Invalid database ID"` renders as
`"Error: {e}"`, every other exception as `"Error executing query: {e}"`. -/
def execQueryErrString (e : PyErr) : String :=
  match e with
  | .valueError m =>
    if strContainsSub m "Invalid database ID" then "Error: " ++ m
    else "Error executing query: " ++ m
  | .otherError m => "Error executing query: " ++ m

/-- Tool `execute_query` (lines 424-453): markdown rendering of the first 10
rows, with a `... and N more rows` suffix beyond 10; every exception is
caught and rendered as an error string. Returns the output string together
with the (possibly updated) session context. -/
def execute_query (query : String) (ctx : DbContext) (db_id : String) :
    String × DbContext :=
  match execAndGetResults query ctx db_id with
  | .ok (result, ctx') =>
    let db_info := "Database: " ++ result.db_description ++
      " (Type: " ++ result.db_db_type ++ ")"
    let header := String.intercalate " | " result.column_names
    let separator := String.intercalate " | "
      (result.column_names.map (fun _ => "---"))
    let table_rows := (result.rows.take 10).map (fun row =>
      String.intercalate " | " (row.map pyStr))
    let result_table := "Query executed on Database: " ++
      result.db_description ++ "\n\n" ++ header ++ "\n" ++ separator ++
      "\n" ++ String.intercalate "\n" table_rows
    let result_table :=
      if result.row_count > 10 then
        result_table ++ "\n\n... and " ++ toString (result.row_count - 10) ++
          " more rows (total: " ++ toString result.row_count ++ ")"
      else result_table
    (db_info ++ "\n\n" ++ result_table, ctx')
  | .error e => (execQueryErrString e, ctx)

/-- The JSON object `execute_query_json` serializes on success
(`{database, columns, rows, row_count}`); `rows` are the original engine
row dicts. -/
structure JsonOutput where
  db_id : String
  db_description : String
  db_db_type : String
  columns : List String
  rows : List Row
  row_count : Nat
deriving DecidableEq, Repr

/-- Tool `execute_query_json` (lines 455-470).  `Sum.inr out` stands for the
`json.dumps(output, indent=2)` serialization of `out`; `Sum.inl s` is the
inline error string from the catch-all `except`. -/
def execute_query_json (query : String) (ctx : DbContext) (db_id : String) :
    (String ⊕ JsonOutput) × DbContext :=
  match execAndGetResults query ctx db_id with
  | .ok (result, ctx') =>
    (.inr { db_id := result.db_id
            db_description := result.db_description
            db_db_type := result.db_db_type
            columns := result.column_names
            rows := result.raw_rows
            row_count := result.row_count }, ctx')
  | .error e => (.inl ("Error executing query: " ++ e.msg), ctx)

/-! ## Call sequences over the session context -/

/-- Which of the two query tools a call uses. -/
inductive CallKind where
  | md
  | js
deriving DecidableEq, Repr

/-- One tool call: the flavour, the query string and the target id. -/
structure Call where
  kind : CallKind
  query : String
  db_id : String
deriving DecidableEq, Repr

/-- Dispatch one call against the context, keeping the updated context. -/
def runCall (ctx : DbContext) (c : Call) : DbContext :=
  match c.kind with
  | .md => (execute_query c.query ctx c.db_id).2
  | .js => (execute_query_json c.query ctx c.db_id).2

/-- Dispatch a sequence of calls left to right. -/
def runCalls (calls : List Call) (ctx : DbContext) : DbContext :=
  calls.foldl runCall ctx

/-- A call is successful: its id resolves and the engine returns a result
rather than raising. -/
def callOk (ctx : DbContext) (c : Call) : Prop :=
  ∃ cfg r, ctx.find c.db_id = some cfg ∧ cfg.run_query c.query = .ok r

/-- The history entry `"[{id}] [{description}] {query}"` a successful call
appends. -/
def historyEntry (ctx : DbContext) (c : Call) : String :=
  match ctx.find c.db_id with
  | some cfg => "[" ++ c.db_id ++ "] [" ++ cfg.description ++ "] " ++ c.query
  | none => ""

theorem runCall_db_configs (ctx : DbContext) (c : Call) :
    (runCall ctx c).db_configs = ctx.db_configs := by
  obtain ⟨k, q, d⟩ := c
  cases k <;>
    · simp only [runCall]
      cases hf : ctx.find d with
      | none => simp [execute_query, execute_query_json, execAndGetResults, hf]
      | some cfg =>
        cases hr : cfg.run_query q <;>
          simp [execute_query, execute_query_json, execAndGetResults, hf, hr]

theorem runCall_ok_history (ctx : DbContext) (c : Call) (cfg : DbConfig)
    (r : QueryResult) (hf : ctx.find c.db_id = some cfg)
    (hr : cfg.run_query c.query = .ok r) :
    (runCall ctx c).query_history =
      ctx.query_history ++ [historyEntry ctx c] := by
  obtain ⟨k, q, d⟩ := c
  cases k <;>
    simp [runCall, execute_query, execute_query_json, execAndGetResults,
      hf, hr, historyEntry] at hf hr ⊢

theorem find_congr {ctx ctx' : DbContext}
    (h : ctx'.db_configs = ctx.db_configs) (db_id : String) :
    ctx'.find db_id = ctx.find db_id := by
  simp [DbContext.find, h]

theorem callOk_congr {ctx ctx' : DbContext}
    (h : ctx'.db_configs = ctx.db_configs) (c : Call) :
    callOk ctx c ↔ callOk ctx' c := by
  unfold callOk
  rw [find_congr h]

theorem historyEntry_congr {ctx ctx' : DbContext}
    (h : ctx'.db_configs = ctx.db_configs) :
    historyEntry ctx' = historyEntry ctx := by
  funext c
  unfold historyEntry
  rw [find_congr h]

theorem runCalls_history_aux (calls : List Call) :
    ∀ ctx : DbContext, (∀ c ∈ calls, callOk ctx c) →
      (runCalls calls ctx).query_history =
        ctx.query_history ++ calls.map (historyEntry ctx) := by
  induction calls with
  | nil => intro ctx _; simp [runCalls]
  | cons c cs ih =>
    intro ctx h
    obtain ⟨cfg, r, hf, hr⟩ := h c (by simp)
    have hconf : (runCall ctx c).db_configs = ctx.db_configs :=
      runCall_db_configs ctx c
    have hcs : ∀ c' ∈ cs, callOk (runCall ctx c) c' := fun c' hc' =>
      (callOk_congr hconf c').mp (h c' (by simp [hc']))
    have hstep : runCalls (c :: cs) ctx = runCalls cs (runCall ctx c) := rfl
    rw [hstep, ih (runCall ctx c) hcs, runCall_ok_history ctx c cfg r hf hr,
      historyEntry_congr hconf]
    simp

/-- C2: a sequence of successful `execute_query` / `execute_query_json`
calls appends exactly one `"[{id}] [{description}] {query}"` entry per call,
in call order; starting from an empty history, N calls leave N entries. -/
theorem runCalls_history (calls : List Call) (ctx : DbContext)
    (h : ∀ c ∈ calls, callOk ctx c) :
    (runCalls calls ctx).query_history =
      ctx.query_history ++ calls.map (historyEntry ctx) ∧
    (ctx.query_history = [] →
      (runCalls calls ctx).query_history.length = calls.length) := by
  have main := runCalls_history_aux calls ctx h
  refine ⟨main, fun hempty => ?_⟩
  rw [main, hempty]
  simp

/-- Engine stub whose every query succeeds with an empty result. -/
def okRunnerCfg : DbConfig :=
  { id := "db1"
    db_type := "pg"
    description := "Main DB"
    schema := none
    run_query := fun _ => .ok ⟨[], []⟩
    fetch_schema := .ok [] }

/-- A session context holding only `okRunnerCfg`, with empty history. -/
def okRunnerCtx : DbContext := ⟨[okRunnerCfg], none, none, []⟩

/-- Witness for C2: two successful calls (one markdown, one JSON) against a
one-database registry. -/
theorem runCalls_history_witness :
    (runCalls [⟨.md, "SELECT 1", "db1"⟩, ⟨.js, "SELECT 2", "db1"⟩]
        okRunnerCtx).query_history =
      okRunnerCtx.query_history ++
        ([⟨.md, "SELECT 1", "db1"⟩, ⟨.js, "SELECT 2", "db1"⟩].map
          (historyEntry okRunnerCtx)) ∧
    (okRunnerCtx.query_history = [] →
      (runCalls [⟨.md, "SELECT 1", "db1"⟩, ⟨.js, "SELECT 2", "db1"⟩]
          okRunnerCtx).query_history.length = 2) :=
  runCalls_history _ okRunnerCtx (by
    intro c hc
    fin_cases hc <;> exact ⟨okRunnerCfg, ⟨[], []⟩, rfl, rfl⟩)

/-! ## C1: unknown id on `execute_query` -/

/-- C1: `execute_query` with an id absent from the registry returns the
inline string `"Error: Invalid database ID: {db_id}"` — which names the
invalid id — and leaves the session context unchanged.  The operation is a
total function, so no exception reaches the caller. -/
theorem execute_query_unknown_id (query : String) (ctx : DbContext)
    (db_id : String) (h : ctx.find db_id = none) :
    execute_query query ctx db_id =
      ("Error: " ++ ("Invalid database ID: " ++ db_id), ctx) := by
  have hlit : ("Invalid database ID: " : String) =
      "Invalid database ID" ++ ": " := rfl
  have hsplit : ("Invalid database ID: " ++ db_id : String) =
      "Invalid database ID" ++ (": " ++ db_id) := by
    rw [hlit, String.append_assoc]
  have hc : strContainsSub ("Invalid database ID: " ++ db_id)
      "Invalid database ID" = true := by
    rw [hsplit]
    exact strContainsSub_append _ _
  simp [execute_query, execAndGetResults, h, execQueryErrString, hc]

/-- Witness for C1: an empty registry and the id `"missing"`. -/
theorem execute_query_unknown_id_witness :
    execute_query "SELECT 1" ⟨[], none, none, []⟩ "missing" =
      ("Error: " ++ ("Invalid database ID: " ++ "missing"),
        ⟨[], none, none, []⟩) :=
  execute_query_unknown_id "SELECT 1" ⟨[], none, none, []⟩ "missing" rfl

/-! ## C9: engine exception during query execution -/

/-- C9: when the engine's `run_query` raises, both query tools return the
caught-exception error string and hand back the session context unchanged —
no history entry, `last_query` and `last_result` keep their values. -/
theorem execute_query_engine_error (query : String) (ctx : DbContext)
    (db_id : String) (cfg : DbConfig) (e : PyErr)
    (hf : ctx.find db_id = some cfg) (hr : cfg.run_query query = .error e) :
    execute_query query ctx db_id = (execQueryErrString e, ctx) ∧
    execute_query_json query ctx db_id =
      (.inl ("Error executing query: " ++ e.msg), ctx) ∧
    (execute_query query ctx db_id).2.query_history = ctx.query_history ∧
    (execute_query query ctx db_id).2.last_query = ctx.last_query ∧
    (execute_query query ctx db_id).2.last_result = ctx.last_result := by
  have h1 : execute_query query ctx db_id = (execQueryErrString e, ctx) := by
    simp [execute_query, execAndGetResults, hf, hr]
  have h2 : execute_query_json query ctx db_id =
      (.inl ("Error executing query: " ++ e.msg), ctx) := by
    simp [execute_query_json, execAndGetResults, hf, hr]
  exact ⟨h1, h2, by rw [h1], by rw [h1], by rw [h1]⟩

/-- Engine stub whose every query raises `RuntimeError("boom")`. -/
def failRunnerCfg : DbConfig :=
  { id := "db2"
    db_type := "mysql"
    description := "Flaky DB"
    schema := none
    run_query := fun _ => .error (.otherError "boom")
    fetch_schema := .ok [] }

/-- A context holding `failRunnerCfg` with some pre-existing state. -/
def failRunnerCtx : DbContext :=
  ⟨[failRunnerCfg], some "old q", some ⟨[], []⟩, ["old entry"]⟩

/-- Witness for C9: a raising engine leaves history and last-query state
untouched. -/
theorem execute_query_engine_error_witness :
    execute_query "SELECT 1" failRunnerCtx "db2" =
      (execQueryErrString (.otherError "boom"), failRunnerCtx) ∧
    execute_query_json "SELECT 1" failRunnerCtx "db2" =
      (.inl ("Error executing query: " ++ (PyErr.otherError "boom").msg),
        failRunnerCtx) ∧
    (execute_query "SELECT 1" failRunnerCtx "db2").2.query_history =
      failRunnerCtx.query_history ∧
    (execute_query "SELECT 1" failRunnerCtx "db2").2.last_query =
      failRunnerCtx.last_query ∧
    (execute_query "SELECT 1" failRunnerCtx "db2").2.last_result =
      failRunnerCtx.last_result :=
  execute_query_engine_error "SELECT 1" failRunnerCtx "db2" failRunnerCfg
    (.otherError "boom") rfl rfl

/-! ## C4: shape of the JSON output -/

/-- The number of distinct `name` values among the engine's result columns. -/
def distinctEngineColumnNames (r : QueryResult) : Nat :=
  ((r.columns.map (fun c => c.name.getD "")).eraseDups).length

/-- Engine stub returning the same column name twice (e.g.
`SELECT a, a FROM t`). -/
def dupColCfg : DbConfig :=
  { id := "d"
    db_type := "pg"
    description := "Dup DB"
    schema := none
    run_query := fun _ => .ok ⟨[⟨some "a", none⟩, ⟨some "a", none⟩], []⟩
    fetch_schema := .ok [] }

/-- Context holding only `dupColCfg`. -/
def dupColCtx : DbContext := ⟨[dupColCfg], none, none, []⟩

/-- The engine result `dupColCfg` returns. -/
def dupColRes : QueryResult := ⟨[⟨some "a", none⟩, ⟨some "a", none⟩], []⟩

/-- The JSON object the call under `dupColCtx` produces. -/
def dupColOut : JsonOutput :=
  { db_id := "d"
    db_description := "Dup DB"
    db_db_type := "pg"
    columns := ["a", "a"]
    rows := []
    row_count := 0 }

/-- Counterexample to C4 as stated: with an engine returning two columns
both named `"a"`, the successful call's output has `columns` of length 2
while the engine returned only 1 distinct column name, so the claimed
equality (together with `row_count = len(rows)`) fails at this input. -/
theorem execute_query_json_distinct_cex :
    (execute_query_json "SELECT a, a FROM t" dupColCtx "d").1 =
      Sum.inr dupColOut ∧
    dupColCfg.run_query "SELECT a, a FROM t" = .ok dupColRes ∧
    ¬ (dupColOut.row_count = dupColOut.rows.length ∧
       dupColOut.columns.length = distinctEngineColumnNames dupColRes) :=
  ⟨rfl, rfl, by decide⟩

/-- C4 (amended): for every successful `execute_query_json` call, the
output object satisfies `row_count = rows.length`, and `columns` has one
entry per column returned by the engine — its length equals the length of
the engine's column list (counting duplicate names), not the number of
distinct names. -/
theorem execute_query_json_shape (query : String) (ctx : DbContext)
    (db_id : String) (cfg : DbConfig) (r : QueryResult)
    (hf : ctx.find db_id = some cfg) (hr : cfg.run_query query = .ok r) :
    ∃ out, (execute_query_json query ctx db_id).1 = Sum.inr out ∧
      out.row_count = out.rows.length ∧
      out.columns.length = r.columns.length := by
  refine ⟨{ db_id := db_id
            db_description := cfg.description
            db_db_type := cfg.db_type
            columns := r.columns.map engineColName
            rows := r.rows
            row_count := r.rows.length }, ?_, ?_, ?_⟩
  · simp [execute_query_json, execAndGetResults, hf, hr]
  · rfl
  · simp

/-- Witness for C4 (amended) at the duplicate-column context. -/
theorem execute_query_json_shape_witness :
    ∃ out, (execute_query_json "SELECT a, a FROM t" dupColCtx "d").1 =
        Sum.inr out ∧
      out.row_count = out.rows.length ∧
      out.columns.length = dupColRes.columns.length :=
  execute_query_json_shape "SELECT a, a FROM t" dupColCtx "d" dupColCfg
    dupColRes rfl rfl

/-! ## `get_schema` resource (lines 222-274) -/

/-- One element of the JSON array `get_schema` returns: the identity
fields plus either a `schema` field (fetch succeeded) or an `error`
field (fetch raised). -/
structure SchemaEntry where
  id : String
  description : String
  db_type : String
  schema : Option (List SchemaTable)
  error : Option String
deriving DecidableEq, Repr

/-- The per-database `try`/`except` body of `get_schema`'s loop. -/
def schemaEntryOf (c : DbConfig) : SchemaEntry :=
  match c.fetch_schema with
  | .ok s => ⟨c.id, c.description, c.db_type, some s, none⟩
  | .error m => ⟨c.id, c.description, c.db_type, none, some m⟩

/-- Resource `get_schema` (lines 222-274).  `Sum.inl s` is a plain string return
(the invalid-id error); `Sum.inr entries` stands for `json.dumps(entries)`.
The function is total: the source wraps the whole body in a catch-all
`except` and every failure inside the loop is embedded as an entry. -/
def get_schema (database_id : Option String) (configs : List DbConfig) :
    String ⊕ List SchemaEntry :=
  match database_id with
  | some dbid =>
    if dbid = "all" then Sum.inr (configs.map schemaEntryOf)
    else
      match configs.find? (fun c => c.id = dbid) with
      | none => Sum.inl ("Error: Invalid database ID " ++ dbid)
      | some cfg => Sum.inr [schemaEntryOf cfg]
  | none => Sum.inr (configs.map schemaEntryOf)

theorem schemaEntryOf_spec (c : DbConfig) :
    (schemaEntryOf c).id = c.id ∧
    (schemaEntryOf c).description = c.description ∧
    (schemaEntryOf c).db_type = c.db_type ∧
    ((∃ s, c.fetch_schema = .ok s ∧ (schemaEntryOf c).schema = some s ∧
        (schemaEntryOf c).error = none) ∨
     (∃ m, c.fetch_schema = .error m ∧ (schemaEntryOf c).error = some m ∧
        (schemaEntryOf c).schema = none)) := by
  cases h : c.fetch_schema with
  | ok s => exact ⟨by simp [schemaEntryOf, h], by simp [schemaEntryOf, h],
      by simp [schemaEntryOf, h], Or.inl ⟨s, rfl, by simp [schemaEntryOf, h],
      by simp [schemaEntryOf, h]⟩⟩
  | error m => exact ⟨by simp [schemaEntryOf, h], by simp [schemaEntryOf, h],
      by simp [schemaEntryOf, h], Or.inr ⟨m, rfl, by simp [schemaEntryOf, h],
      by simp [schemaEntryOf, h]⟩⟩

/-- C5: `get_schema` with the id omitted or equal to `"all"` returns the
JSON array branch (never a raw error, never an exception — the function is
total), with exactly one entry per registered descriptor in registry order;
each entry carries the descriptor's identity fields plus its schema on a
successful fetch, or an error message instead when the fetch fails. -/
theorem get_schema_all (configs : List DbConfig) (database_id : Option String)
    (h : database_id = none ∨ database_id = some "all") :
    ∃ entries, get_schema database_id configs = Sum.inr entries ∧
      entries.length = configs.length ∧
      List.Forall₂ (fun (c : DbConfig) (e : SchemaEntry) =>
          e.id = c.id ∧ e.description = c.description ∧
          e.db_type = c.db_type ∧
          ((∃ s, c.fetch_schema = .ok s ∧ e.schema = some s ∧
              e.error = none) ∨
           (∃ m, c.fetch_schema = .error m ∧ e.error = some m ∧
              e.schema = none)))
        configs (configs.map schemaEntryOf) := by
  have hall : ∀ cs : List DbConfig,
      List.Forall₂ (fun (c : DbConfig) (e : SchemaEntry) =>
          e.id = c.id ∧ e.description = c.description ∧
          e.db_type = c.db_type ∧
          ((∃ s, c.fetch_schema = .ok s ∧ e.schema = some s ∧
              e.error = none) ∨
           (∃ m, c.fetch_schema = .error m ∧ e.error = some m ∧
              e.schema = none)))
        cs (cs.map schemaEntryOf) := by
    intro cs
    induction cs with
    | nil => simp
    | cons c t ih =>
      refine List.Forall₂.cons ?_ ih
      exact schemaEntryOf_spec c
  rcases h with h | h <;>
    · subst h
      exact ⟨configs.map schemaEntryOf, rfl, by simp, hall configs⟩

/-- Descriptor whose schema fetch succeeds with one table. -/
def okFetchCfg : DbConfig :=
  { id := "a"
    db_type := "pg"
    description := "A"
    schema := none
    run_query := fun _ => .ok ⟨[], []⟩
    fetch_schema := .ok [⟨some "users", [⟨some "id"⟩]⟩] }

/-- Descriptor whose schema fetch raises. -/
def errFetchCfg : DbConfig :=
  { id := "b"
    db_type := "mysql"
    description := "B"
    schema := none
    run_query := fun _ => .ok ⟨[], []⟩
    fetch_schema := .error "connection refused" }

/-- Witness for C5 with one succeeding and one failing fetch. -/
theorem get_schema_all_witness :
    ∃ entries, get_schema none [okFetchCfg, errFetchCfg] = Sum.inr entries ∧
      entries.length = [okFetchCfg, errFetchCfg].length ∧
      List.Forall₂ (fun (c : DbConfig) (e : SchemaEntry) =>
          e.id = c.id ∧ e.description = c.description ∧
          e.db_type = c.db_type ∧
          ((∃ s, c.fetch_schema = .ok s ∧ e.schema = some s ∧
              e.error = none) ∨
           (∃ m, c.fetch_schema = .error m ∧ e.error = some m ∧
              e.schema = none)))
        [okFetchCfg, errFetchCfg]
        ([okFetchCfg, errFetchCfg].map schemaEntryOf) :=
  get_schema_all [okFetchCfg, errFetchCfg] none (Or.inl rfl)

/-! ## Schema summary (`get_database_schema_summary`, lines 319-345) -/

/-- The loop body of `get_database_schema_summary` for one table:
`none` models the `continue` taken when the table has no (truthy) name. -/
def tableSummary (t : SchemaTable) : Option String :=
  let tname := t.name.getD ""
  if tname = "" then none
  else
    let cols := (t.columns.take 5).map (fun c => c.name.getD "")
    let columnStr := String.intercalate ", " cols
    let columnStr :=
      if t.columns.length > 5 then columnStr ++ ", ..." else columnStr
    some ("- " ++ tname ++ " (" ++ columnStr ++ ")")

/-- Function `get_database_schema_summary` (lines 319-345). -/
def get_database_schema_summary (cfg : DbConfig) : String :=
  match cfg.schema with
  | none => "Schema information not available"
  | some tables =>
    if tables.isEmpty then "No tables found in schema"
    else
      let base := (tables.take 10).filterMap tableSummary
      let summaries :=
        if tables.length > 10 then
          base ++ ["... and " ++ toString (tables.length - 10) ++
            " more tables"]
        else base
      if summaries.isEmpty then "No tables found in schema"
      else String.intercalate "\n" summaries

/-- The line rendered for a table with a truthy name, as the spec words it:
the name, then up to 5 column names, with `", ..."` appended when the table
has more than 5 columns. -/
def namedTableLine (t : SchemaTable) : String :=
  "- " ++ t.name.getD "" ++ " (" ++
    String.intercalate ", " ((t.columns.take 5).map (fun c => c.name.getD "")) ++
    (if t.columns.length > 5 then ", ..." else "") ++ ")"

theorem tableSummary_named (t : SchemaTable) (h : t.name.getD "" ≠ "") :
    tableSummary t = some (namedTableLine t) := by
  simp only [tableSummary, namedTableLine, if_neg h]
  rcases Nat.lt_or_ge 5 t.columns.length with hgt | hle
  · rw [if_pos hgt, if_pos hgt]
    simp [String.append_assoc]
  · rw [if_neg (by omega), if_neg (by omega)]
    simp [String.append_assoc]

theorem filterMap_eq_map_of_forall {α β : Type} (l : List α)
    (f : α → Option β) (g : α → β) (h : ∀ a ∈ l, f a = some (g a)) :
    l.filterMap f = l.map g := by
  induction l with
  | nil => rfl
  | cons a t ih =>
    simp [List.filterMap_cons, h a (by simp),
      ih (fun x hx => h x (by simp [hx]))]

/-- C6: `get_database_schema_summary` returns exactly
`"Schema information not available"` for an absent schema and exactly
`"No tables found in schema"` for an empty table list; with more than 10
(named) tables it lists exactly the first 10 followed by one
`"... and {k} more tables"` line with `k` the remaining count; each listed
table line shows the first `min 5` column names, with `", ..."` appended
exactly when the table has more than 5 columns. -/
theorem schema_summary_spec (cfg : DbConfig) :
    (cfg.schema = none →
      get_database_schema_summary cfg = "Schema information not available") ∧
    (cfg.schema = some [] →
      get_database_schema_summary cfg = "No tables found in schema") ∧
    (∀ tables, cfg.schema = some tables → 10 < tables.length →
      (∀ t ∈ tables, t.name.getD "" ≠ "") →
      get_database_schema_summary cfg =
        String.intercalate "\n"
          ((tables.take 10).map namedTableLine ++
            ["... and " ++ toString (tables.length - 10) ++
              " more tables"])) ∧
    (∀ t : SchemaTable, t.name.getD "" ≠ "" →
      tableSummary t = some (namedTableLine t) ∧
      ((t.columns.take 5).map (fun c => c.name.getD "")).length =
        min 5 t.columns.length) := by
  refine ⟨?_, ?_, ?_, ?_⟩
  · intro h; simp [get_database_schema_summary, h]
  · intro h; simp [get_database_schema_summary, h]
  · intro tables hsch hlen hnames
    have hne : tables.isEmpty = false := by
      cases tables with
      | nil => simp at hlen
      | cons a t => rfl
    have hmap : (tables.take 10).filterMap tableSummary =
        (tables.take 10).map namedTableLine := by
      apply filterMap_eq_map_of_forall
      intro a ha
      exact tableSummary_named a (hnames a (List.mem_of_mem_take ha))
    simp only [get_database_schema_summary, hsch, hne, Bool.false_eq_true,
      if_false, hmap, if_pos hlen]
    have hnonempty :
        ((tables.take 10).map namedTableLine ++
          ["... and " ++ toString (tables.length - 10) ++
            " more tables"]).isEmpty = false := by
      simp
    rw [if_neg (by simp [hnonempty])]
  · intro t h
    refine ⟨tableSummary_named t h, ?_⟩
    simp [Nat.min_comm]

/-- A schema of 12 named tables with 6 named columns each. -/
def twelveTables : List SchemaTable :=
  (List.range 12).map (fun i =>
    ⟨some ("t" ++ toString i),
      (List.range 6).map (fun j => ⟨some ("c" ++ toString j)⟩)⟩)

/-- Descriptor carrying `twelveTables` as its cached schema. -/
def twelveTablesCfg : DbConfig :=
  { id := "big"
    db_type := "pg"
    description := "Big DB"
    schema := some twelveTables
    run_query := fun _ => .ok ⟨[], []⟩
    fetch_schema := .ok [] }

/-- Witness for C6 at a 12-table schema: the summary truncates to the
first 10 tables plus a `"... and 2 more tables"` line. -/
theorem schema_summary_spec_witness :
    get_database_schema_summary twelveTablesCfg =
      String.intercalate "\n"
        ((twelveTables.take 10).map namedTableLine ++
          ["... and " ++ toString (twelveTables.length - 10) ++
            " more tables"]) :=
  (schema_summary_spec twelveTablesCfg).2.2.1 twelveTables rfl (by decide)
    (by decide)

/-! ## `find_table` (lines 600-625) -/

/-- The body of `find_table`'s outer loop for one descriptor: `none` when
the descriptor is skipped (falsy schema) or contains no matching table,
otherwise the `{db_id, db_name, db_type}` record appended to `found_in`.
The inner loop's `break` after the first matching table is the `any`. -/
def findTableEntry (tn : String) (cfg : DbConfig) : Option (String × String × String) :=
  if !pyTruthySchema cfg.schema then none
  else if (cfg.schema.getD []).any (fun t => t.name == some tn) then
    some (cfg.id, cfg.description, cfg.db_type)
  else none

/-- Tool `find_table` (lines 600-625). -/
def find_table (tn : String) (configs : List DbConfig) : String :=
  let found_in := configs.filterMap (findTableEntry tn)
  if found_in.isEmpty then
    "Table \x27" ++ tn ++ "\x27 was not found in any database schema."
  else
    "Table \x27" ++ tn ++ "\x27 was found in the following databases:\n" ++
      String.join (found_in.map (fun db =>
        "- Database ID: " ++ db.1 ++ " - " ++ db.2.1 ++
          " (Type: " ++ db.2.2 ++ ")\n"))

/-- The spec-side membership predicate: the descriptor's cached schema
contains a table whose name equals the requested name exactly (an absent
schema contains no table). -/
def schemaContainsTable (tn : String) (cfg : DbConfig) : Bool :=
  (cfg.schema.getD []).any (fun t => t.name == some tn)

theorem findTableEntry_eq_filter (tn : String) (cfg : DbConfig) :
    findTableEntry tn cfg =
      if schemaContainsTable tn cfg then
        some (cfg.id, cfg.description, cfg.db_type)
      else none := by
  cases h : cfg.schema with
  | none => simp [findTableEntry, schemaContainsTable, pyTruthySchema, h]
  | some l =>
    cases l with
    | nil => simp [findTableEntry, schemaContainsTable, pyTruthySchema, h]
    | cons a t =>
      simp [findTableEntry, schemaContainsTable, pyTruthySchema, h]

theorem filterMap_ite_eq_filter_map {α β : Type} (l : List α)
    (p : α → Bool) (g : α → β)
    (f : α → Option β) (hf : ∀ a, f a = if p a then some (g a) else none) :
    l.filterMap f = (l.filter p).map g := by
  induction l with
  | nil => rfl
  | cons a t ih =>
    cases hp : p a <;>
      simp [List.filterMap_cons, List.filter_cons, hf a, hp, ih]

/-- C7: `find_table` reports exactly the descriptors whose cached schema
contains a table named exactly `tn` — the `found_in` list equals the
registry filtered by that predicate, in registry order (descriptors whose
schema is absent or empty are skipped, matching no table, and cause no
error since the operation is a total function); and when no descriptor
matches, the result is the not-found message naming the table. -/
theorem find_table_spec (tn : String) (configs : List DbConfig) :
    configs.filterMap (findTableEntry tn) =
      (configs.filter (schemaContainsTable tn)).map
        (fun c => (c.id, c.description, c.db_type)) ∧
    ((∀ c ∈ configs, schemaContainsTable tn c = false) →
      find_table tn configs =
        "Table \x27" ++ tn ++ "\x27 was not found in any database schema.") := by
  have hmain : configs.filterMap (findTableEntry tn) =
      (configs.filter (schemaContainsTable tn)).map
        (fun c => (c.id, c.description, c.db_type)) :=
    filterMap_ite_eq_filter_map configs (schemaContainsTable tn) _ _
      (fun c => findTableEntry_eq_filter tn c)
  refine ⟨hmain, fun hnone => ?_⟩
  have hfilter : configs.filter (schemaContainsTable tn) = [] := by
    rw [List.filter_eq_nil_iff]
    intro a ha
    simp [hnone a ha]
  simp [find_table, hmain, hfilter]

/-- The spec §8 example: a `pg` database with a `users` table. -/
def pgUsersCfg : DbConfig :=
  { id := "pg_db"
    db_type := "pg"
    description := "PG"
    schema := some [⟨some "users", [⟨some "id"⟩, ⟨some "name"⟩]⟩]
    run_query := fun _ => .ok ⟨[], []⟩
    fetch_schema := .ok [] }

/-- The spec §8 example: a `mysql` database with an `orders` table. -/
def mysqlOrdersCfg : DbConfig :=
  { id := "mysql_db"
    db_type := "mysql"
    description := "MY"
    schema := some [⟨some "orders", []⟩]
    run_query := fun _ => .ok ⟨[], []⟩
    fetch_schema := .ok [] }

/-- Witness for C7: `find_table "missing"` over the two example
descriptors yields the not-found message, and the match list for
`"users"` is exactly the `pg_db` entry. -/
theorem find_table_spec_witness :
    find_table "missing" [pgUsersCfg, mysqlOrdersCfg] =
      "Table \x27" ++ "missing" ++
        "\x27 was not found in any database schema." ∧
    [pgUsersCfg, mysqlOrdersCfg].filterMap (findTableEntry "users") =
      ([pgUsersCfg, mysqlOrdersCfg].filter (schemaContainsTable "users")).map
        (fun c => (c.id, c.description, c.db_type)) :=
  ⟨(find_table_spec "missing" [pgUsersCfg, mysqlOrdersCfg]).2 (by decide),
   (find_table_spec "users" [pgUsersCfg, mysqlOrdersCfg]).1⟩

/-! ## `list_databases` (lines 293-312) -/

/-- The line `list_databases` renders for one descriptor: identity plus a
table count only when the cached schema is truthy. -/
def dbLine (cfg : DbConfig) : String :=
  let base := "ID: " ++ cfg.id ++ " - " ++ cfg.description ++
    " (Type: " ++ cfg.db_type ++ ")"
  if pyTruthySchema cfg.schema then
    base ++ " - " ++ toString ((cfg.schema.getD []).length) ++ " tables"
  else base

/-- Tool `list_databases` (lines 293-312). -/
def list_databases (configs : List DbConfig) : String :=
  if configs.isEmpty then "No database connections available."
  else "Available databases:\n" ++
    String.intercalate "\n" (configs.map dbLine)

/-- C10: a descriptor whose cached schema is the empty list is
indistinguishable at the public interface from one whose schema is absent:
it contributes no `find_table` match (both yield `none`), its
`list_databases` line omits the table count, and replacing `some []` by
`none` in any registry position changes neither operation's output —
because both test the schema for truthiness, not presence. -/
theorem empty_schema_like_absent (cfg : DbConfig) (h : cfg.schema = some []) :
    (∀ tn, findTableEntry tn cfg = none ∧
      findTableEntry tn { cfg with schema := none } = none) ∧
    dbLine cfg = dbLine { cfg with schema := none } ∧
    (∀ (pre post : List DbConfig) (tn : String),
      find_table tn (pre ++ cfg :: post) =
        find_table tn (pre ++ { cfg with schema := none } :: post)) ∧
    (∀ pre post : List DbConfig,
      list_databases (pre ++ cfg :: post) =
        list_databases (pre ++ { cfg with schema := none } :: post)) := by
  have hentry : ∀ tn, findTableEntry tn cfg = none ∧
      findTableEntry tn { cfg with schema := none } = none := by
    intro tn
    constructor <;> simp [findTableEntry, pyTruthySchema, h]
  have hline : dbLine cfg = dbLine { cfg with schema := none } := by
    simp [dbLine, pyTruthySchema, h]
  refine ⟨hentry, hline, ?_, ?_⟩
  · intro pre post tn
    have hfm : (pre ++ cfg :: post).filterMap (findTableEntry tn) =
        (pre ++ { cfg with schema := none } :: post).filterMap
          (findTableEntry tn) := by
      simp [List.filterMap_append, List.filterMap_cons, (hentry tn).1,
        (hentry tn).2]
    simp only [find_table, hfm]
  · intro pre post
    have hmap : (pre ++ cfg :: post).map dbLine =
        (pre ++ { cfg with schema := none } :: post).map dbLine := by
      simp [List.map_append, hline]
    have hemp : (pre ++ cfg :: post).isEmpty =
        (pre ++ { cfg with schema := none } :: post).isEmpty := by
      cases pre <;> rfl
    simp only [list_databases, hmap, hemp]

/-- Descriptor whose cached schema is the empty list. -/
def emptySchemaCfg : DbConfig :=
  { id := "e"
    db_type := "pg"
    description := "E"
    schema := some []
    run_query := fun _ => .ok ⟨[], []⟩
    fetch_schema := .ok [] }

/-- Witness for C10 at a concrete empty-schema descriptor. -/
theorem empty_schema_like_absent_witness :
    dbLine emptySchemaCfg = dbLine { emptySchemaCfg with schema := none } ∧
    find_table "users" ([] ++ emptySchemaCfg :: []) =
      find_table "users" ([] ++ { emptySchemaCfg with schema := none } :: []) ∧
    list_databases ([] ++ emptySchemaCfg :: []) =
      list_databases ([] ++ { emptySchemaCfg with schema := none } :: []) :=
  ⟨(empty_schema_like_absent emptySchemaCfg rfl).2.1,
   (empty_schema_like_absent emptySchemaCfg rfl).2.2.1 [] [] "users",
   (empty_schema_like_absent emptySchemaCfg rfl).2.2.2 [] []⟩

/-! ## `get_table_sample` (lines 548-597) -/

/-- The query string `get_table_sample` sends to the engine:
`f"SELECT * FROM {table_name} LIMIT {min(limit, 100)}"`. -/
def sampleQuery (tn : String) (limit : Int) : String :=
  "SELECT * FROM " ++ tn ++ " LIMIT " ++ toString (min limit 100)

/-- The column names `get_table_sample` extracts (engine columns are
dicts in this model, so the `isinstance(col, dict)` branch applies). -/
def sampleColumnNames (cols : List EngineColumn) : List String :=
  cols.map engineColName

/-- One rendered sample row: `str(row.get(col, ''))` per extracted column
name, joined with `" | "`. -/
def sampleRowLine (column_names : List String) (row : Row) : String :=
  String.intercalate " | " (column_names.map (fun cn => rowGetD row cn ""))

/-- The heading line of the sample output. -/
def sampleHead (desc tn db_id : String) : String :=
  "Sample data from table \x27" ++ tn ++ "\x27 in Database: " ++ desc ++
    " (ID: " ++ db_id ++ ")\n\n"

/-- The body of `get_table_sample` once the descriptor is resolved. -/
def sampleForCfg (cfg : DbConfig) (tn db_id : String) (limit : Int) : String :=
  match cfg.run_query (sampleQuery tn limit) with
  | .error e =>
    "Error getting sample data from table " ++ tn ++ ": " ++ e.msg
  | .ok result =>
    let column_names := sampleColumnNames result.columns
    let header := String.intercalate " | " column_names
    let separator := String.intercalate " | "
      (column_names.map (fun _ => "---"))
    let table_rows := result.rows.map (sampleRowLine column_names)
    let sample_data := sampleHead cfg.description tn db_id ++ header ++
      "\n" ++ separator ++ "\n" ++ String.intercalate "\n" table_rows
    if result.rows.isEmpty then
      sample_data ++ "\n\nNo data found in table."
    else sample_data

/-- Tool `get_table_sample` (lines 548-597): id validation, then `sampleForCfg`.
Total; every engine exception is caught. -/
def get_table_sample (ctx : DbContext) (tn db_id : String) (limit : Int) :
    String :=
  match ctx.find db_id with
  | none => "Error: Invalid database ID " ++ db_id
  | some cfg => sampleForCfg cfg tn db_id limit

/-- C8: on a valid id, `get_table_sample` consults the engine only at the
exact query `"SELECT * FROM {table} LIMIT {min(limit,100)}"` (any engine
agreeing at that one string, with the same description, yields the same
output); the markdown body renders one line per returned row with no
truncation beyond the `LIMIT` clause; and with zero returned rows the
output ends in `"No data found in table."`. -/
theorem get_table_sample_spec (ctx : DbContext) (tn db_id : String)
    (limit : Int) (cfg : DbConfig) (r : QueryResult)
    (hf : ctx.find db_id = some cfg)
    (hr : cfg.run_query (sampleQuery tn limit) = .ok r) :
    sampleQuery tn limit =
      "SELECT * FROM " ++ tn ++ " LIMIT " ++ toString (min limit 100) ∧
    (∀ cfg' : DbConfig, cfg'.description = cfg.description →
      cfg'.run_query (sampleQuery tn limit) = .ok r →
      sampleForCfg cfg' tn db_id limit = sampleForCfg cfg tn db_id limit) ∧
    (∃ head, get_table_sample ctx tn db_id limit =
      head ++ String.intercalate "\n"
        (r.rows.map (sampleRowLine (sampleColumnNames r.columns))) ++
      (if r.rows.isEmpty then "\n\nNo data found in table." else "")) ∧
    (r.rows.map (sampleRowLine (sampleColumnNames r.columns))).length =
      r.rows.length ∧
    (r.rows = [] → ∃ pre, get_table_sample ctx tn db_id limit =
      pre ++ "No data found in table.") := by
  have hout : get_table_sample ctx tn db_id limit =
      sampleForCfg cfg tn db_id limit := by
    simp [get_table_sample, hf]
  refine ⟨rfl, ?_, ?_, by simp, ?_⟩
  · intro cfg' hdesc hrun
    simp [sampleForCfg, hr, hrun, hdesc]
  · refine ⟨sampleHead cfg.description tn db_id ++
      String.intercalate " | " (sampleColumnNames r.columns) ++ "\n" ++
      String.intercalate " | "
        ((sampleColumnNames r.columns).map (fun _ => "---")) ++ "\n", ?_⟩
    rw [hout]
    cases hrows : r.rows with
    | nil => simp [sampleForCfg, hr, hrows, String.append_assoc]
    | cons a t =>
      simp [sampleForCfg, hr, hrows, String.append_assoc]
  · intro hrows
    refine ⟨sampleHead cfg.description tn db_id ++
      String.intercalate " | " (sampleColumnNames r.columns) ++ "\n" ++
      String.intercalate " | "
        ((sampleColumnNames r.columns).map (fun _ => "---")) ++
      "\n" ++ "\n\n", ?_⟩
    rw [hout]
    simp [sampleForCfg, hr, hrows, String.append_assoc]
    congr 1

/-- Engine stub that returns zero rows for every query. -/
def emptyRowsCfg : DbConfig :=
  { id := "s"
    db_type := "pg"
    description := "S"
    schema := none
    run_query := fun _ => .ok ⟨[⟨some "id", none⟩], []⟩
    fetch_schema := .ok [] }

/-- Context holding only `emptyRowsCfg`. -/
def emptyRowsCtx : DbContext := ⟨[emptyRowsCfg], none, none, []⟩

/-- Witness for C8 at a zero-row table with `limit = 250` (clamped to
100). -/
theorem get_table_sample_spec_witness :
    sampleQuery "users" 250 =
      "SELECT * FROM " ++ "users" ++ " LIMIT " ++
        toString (min (250 : Int) 100) ∧
    (∀ cfg' : DbConfig, cfg'.description = emptyRowsCfg.description →
      cfg'.run_query (sampleQuery "users" 250) =
        .ok ⟨[⟨some "id", none⟩], []⟩ →
      sampleForCfg cfg' "users" "s" 250 =
        sampleForCfg emptyRowsCfg "users" "s" 250) ∧
    (∃ head, get_table_sample emptyRowsCtx "users" "s" 250 =
      head ++ String.intercalate "\n"
        ((⟨[⟨some "id", none⟩], []⟩ : QueryResult).rows.map
          (sampleRowLine (sampleColumnNames [⟨some "id", none⟩]))) ++
      (if (⟨[⟨some "id", none⟩], []⟩ : QueryResult).rows.isEmpty then
        "\n\nNo data found in table." else "")) ∧
    ((⟨[⟨some "id", none⟩], []⟩ : QueryResult).rows.map
      (sampleRowLine (sampleColumnNames [⟨some "id", none⟩]))).length =
      (⟨[⟨some "id", none⟩], []⟩ : QueryResult).rows.length ∧
    ((⟨[⟨some "id", none⟩], []⟩ : QueryResult).rows = [] →
      ∃ pre, get_table_sample emptyRowsCtx "users" "s" 250 =
        pre ++ "No data found in table.") :=
  get_table_sample_spec emptyRowsCtx "users" "s" 250 emptyRowsCfg
    ⟨[⟨some "id", none⟩], []⟩ rfl rfl
